import Mathlib

/-!
Shallow embedding of the Samsara ETA bot (`main.ts`): request normalization
(free-text query parsing), stop/origin resolution, and the sequential
multi-leg itinerary builder, together with proofs of the specified
properties.

Modelling conventions:
* JS numbers are modelled as exact rationals (`ℚ`); `Math.round` is
  `⌊x + 1/2⌋` (its semantics on reals), `Math.floor` is `Int.fdiv`, and the
  JS `%` operator is truncated remainder (`Int.tmod`).
* Timestamps are carried as integer milliseconds since the epoch (the value
  inside a JS `Date`); `Date.prototype.toISOString` is a fixed injective
  rendering of that value, so itinerary claims about arrival timestamps are
  stated on the millisecond values.
* Network collaborators (Samsara vehicle lookup, GPS stats, Nominatim
  geocoding, OSRM routing) are oracles collected in an `Env` record; a
  thrown JS exception is an `Except.error` carrying the `Error` message.
* String rendering of numbers inside URLs uses Lean's `toString` in place
  of JS float formatting; all structural URL claims are independent of the
  digit rendering.
-/

/-- Split a character stream on runs of whitespace, dropping empty pieces:
the model of `q.trim().split(/\s+/).filter((t) => t.length > 0)`. -/
def splitWsAux : List Char → List Char → List String
  | [], acc => if acc.isEmpty then [] else [String.mk acc.reverse]
  | c :: cs, acc =>
    if c.isWhitespace then
      if acc.isEmpty then splitWsAux cs []
      else String.mk acc.reverse :: splitWsAux cs []
    else splitWsAux cs (c :: acc)

/-- Whitespace tokenization of a query string. -/
def tokenize (q : String) : List String := splitWsAux q.data []

/-- ASCII lowering, the model of `t.toLowerCase()` on the ASCII tokens the
parser compares (`"to"`). -/
def lowerStr (s : String) : String := String.mk (s.data.map Char.toLower)

/-- The model of the JS regex test `/\d/.test(t)`. -/
def hasDigit (s : String) : Bool := s.data.any Char.isDigit

/-- `Array.prototype.join(" ")`. -/
def joinSpace : List String → String
  | [] => ""
  | [s] => s
  | s :: rest => s ++ " " ++ joinSpace rest

/-- `Array.prototype.join("|")`. -/
def joinPipe : List String → String
  | [] => ""
  | [s] => s
  | s :: rest => s ++ "|" ++ joinPipe rest

/-- The `ParsedQuery` union type of `main.ts`: either a truck-based intent
(with optional destination city/state) or a city-to-city intent. -/
inductive ParsedQuery where
  | truck (truckNumber : String) (city state : Option String)
  | city (originCity originState : String) (city state : Option String)
deriving DecidableEq, Repr

/-- The token-level body of `parseFreeformQuery` (everything after
tokenization). `findIdx?` models the `-1` sentinel of `findIndex` as
`none`. -/
def parseTokens (tokens : List String) : Option ParsedQuery :=
  if tokens.length < 2 then none
  else
    let lower := tokens.map lowerStr
    let toIdx := lower.findIdx? (fun t => t == "to")
    let truckIdx := tokens.findIdx? hasDigit
    match truckIdx with
    | some k =>
      let truckNumber := tokens.getD k ""
      let destTokens :=
        match toIdx with
        | some j => if j + 1 < tokens.length then tokens.drop (j + 1) else tokens.drop (k + 1)
        | none => tokens.drop (k + 1)
      if 2 ≤ destTokens.length then
        let state := destTokens.getD (destTokens.length - 1) ""
        let city := joinSpace destTokens.dropLast
        some (.truck truckNumber (some city) (some state))
      else
        some (.truck truckNumber none none)
    | none =>
      match toIdx with
      | some j =>
        if 0 < j ∧ j + 1 < tokens.length then
          let originTokens := tokens.take j
          let destTokens := tokens.drop (j + 1)
          if 2 ≤ originTokens.length ∧ 2 ≤ destTokens.length then
            some (.city (joinSpace originTokens.dropLast)
              (originTokens.getD (originTokens.length - 1) "")
              (some (joinSpace destTokens.dropLast))
              (some (destTokens.getD (destTokens.length - 1) "")))
          else none
        else none
      | none => none

/-- `parseFreeformQuery` of `main.ts`. -/
def parseFreeformQuery (q : String) : Option ParsedQuery :=
  parseTokens (tokenize q)

/-- Rendering of the amended destination-token sentence for the vehicle
branch: the destination tokens are the tokens after `"to"` whenever `"to"`
occurs anywhere in the token list and is not the last token — regardless
of whether `"to"` comes before or after the vehicle token at `truckIdx` —
and otherwise the tokens after the vehicle token. -/
def vehicleDestTokens (tokens : List String) (truckIdx : ℕ) : List String :=
  match (tokens.map lowerStr).findIdx? (fun t => t == "to") with
  | some j => if j + 1 < tokens.length then tokens.drop (j + 1) else tokens.drop (truckIdx + 1)
  | none => tokens.drop (truckIdx + 1)

/-- `Math.round` on exact rationals: round half toward positive infinity,
i.e. `⌊x + 1/2⌋` (stated as `jsRound_eq_floor` below; `Rat.floor` keeps the
definition kernel-computable). -/
def jsRound (q : ℚ) : ℤ := Rat.floor (q + 1/2)

/-- `kmToMiles` of `main.ts`: `Math.round((km * 0.621371) * 10) / 10`. -/
def kmToMiles (km : ℚ) : ℚ := (jsRound (km * (621371 / 1000000) * 10) : ℚ) / 10

/-- `formatDuration` of `main.ts`. The argument is the (integer) seconds
value; `Math.floor` of a real quotient is `Int.fdiv`, JS `%` is
`Int.tmod`. -/
def formatDuration (sec : ℤ) : String :=
  let hours := Int.fdiv sec 3600
  let minutes := Int.fdiv (Int.tmod sec 3600) 60
  let parts := (if 0 < hours then [toString hours ++ "h"] else []) ++ [toString minutes ++ "m"]
  joinSpace parts

/-- Geographic point, the `Point` type of `main.ts`. -/
structure Point where
  lat : ℚ
  lng : ℚ
deriving DecidableEq, Repr

/-- Rendering of the JS template literal `lat,lng` for a point. -/
def pointStr (p : Point) : String := toString p.lat ++ "," ++ toString p.lng

/-- Uppercase hexadecimal digit. -/
def hexDigit (n : ℕ) : Char := "0123456789ABCDEF".data.getD n (Char.ofNat 48)

/-- UTF-8 encoding of one character, as byte values. -/
def utf8Bytes (c : Char) : List ℕ :=
  let n := c.toNat
  if n < 128 then [n]
  else if n < 2048 then [192 + n / 64, 128 + n % 64]
  else if n < 65536 then [224 + n / 4096, 128 + (n / 64) % 64, 128 + n % 64]
  else [240 + n / 262144, 128 + (n / 4096) % 64, 128 + (n / 64) % 64, 128 + n % 64]

/-- Characters left unescaped by JS `encodeURIComponent`:
`A-Z a-z 0-9 - _ . ! ~ * ' ( )` (39 is the apostrophe). -/
def isUnreservedUriChar (c : Char) : Bool :=
  c.isAlpha || c.isDigit || "-_.!~*()".data.contains c || c == Char.ofNat 39

/-- Percent-encoding of one byte (37 is the percent sign). -/
def percentByte (b : ℕ) : List Char :=
  [Char.ofNat 37, hexDigit (b / 16), hexDigit (b % 16)]

/-- JS `encodeURIComponent`. -/
def encodeURIComponent (s : String) : String :=
  String.mk ((s.data.map (fun c =>
    if isUnreservedUriChar c then [c]
    else ((utf8Bytes c).map percentByte).flatten)).flatten)

/-- `buildPointMapsUrl` of `main.ts` (raw interpolation, no escaping). -/
def buildPointMapsUrl (p : Point) : String :=
  "https://www.google.com/maps/search/?api=1&query=" ++ pointStr p

/-- `buildDirectionsUrl` of `main.ts`. -/
def buildDirectionsUrl (origin dest : Point) : String :=
  "https://www.google.com/maps/dir/?api=1&origin=" ++ encodeURIComponent (pointStr origin) ++
    "&destination=" ++ encodeURIComponent (pointStr dest) ++ "&travelmode=driving"

/-- `buildMultiStopDirectionsUrl` of `main.ts`: the `stops.length === 0`
check is the `getLast?` match, `firstDest` is `stops[stops.length - 1]`,
and the waypoints are `stops.slice(0, -1)`. -/
def buildMultiStopDirectionsUrl (origin : Point) (stops : List Point) : String :=
  match stops.getLast? with
  | none => buildDirectionsUrl origin origin
  | some firstDest =>
    let waypoints := stops.dropLast
    let url := "https://www.google.com/maps/dir/?api=1&origin=" ++
      encodeURIComponent (pointStr origin) ++ "&destination=" ++
      encodeURIComponent (pointStr firstDest) ++ "&travelmode=driving"
    if 0 < waypoints.length then
      url ++ "&waypoints=" ++ encodeURIComponent (joinPipe (waypoints.map pointStr))
    else url

/-- JS truthiness of a possibly-absent string field (`undefined` and `""`
are falsy). -/
def optTruthy : Option String → Bool
  | none => false
  | some s => !(s == "")

/-- `String.prototype.trim`. -/
def trimStr (s : String) : String :=
  String.mk (((s.data.dropWhile Char.isWhitespace).reverse.dropWhile Char.isWhitespace).reverse)

/-- The `StopInput` type of `main.ts`. -/
structure StopInput where
  city : Option String := none
  state : Option String := none
  address : Option String := none
deriving DecidableEq, Repr

/-- The `EtaRequest` payload type of `main.ts`. -/
structure EtaRequest where
  query : Option String := none
  truckNumber : Option String := none
  city : Option String := none
  state : Option String := none
  originCity : Option String := none
  originState : Option String := none
  destinations : Option (List StopInput) := none
deriving DecidableEq, Repr

/-- The fields of a Samsara `GpsStat` the handler reads. -/
structure GpsStat where
  latitude : ℚ
  longitude : ℚ
  reverseGeoFormattedLocation : Option String := none
deriving DecidableEq, Repr

/-- Result shape of `findVehicleByTruckNumber`. -/
structure VehicleRef where
  id : String
  name : String
deriving DecidableEq, Repr

/-- Raw OSRM route fields read by `routeEta` (`route.distance` in meters,
`route.duration` in seconds). -/
structure RouteRaw where
  distance : ℚ
  duration : ℚ
deriving DecidableEq, Repr

/-- The network collaborators of `main.ts` as oracles: the Samsara
vehicle-by-name lookup, the GPS snapshot by vehicle id, Nominatim
geocoding (first result or none), OSRM routing, and the request timestamp
`new Date()` in epoch milliseconds. -/
structure Env where
  findVehicleByTruckNumber : String → Option VehicleRef
  getVehicleGpsById : String → Option GpsStat
  geocode : String → Option Point
  route : Point → Point → Option RouteRaw
  nowMs : ℤ

/-- Result of `geocodeStop`. -/
structure ResolvedStop where
  point : Point
  label : String
  city : Option String := none
  state : Option String := none
deriving DecidableEq, Repr

/-- `geocodeCityState` of `main.ts`. -/
def geocodeCityState (env : Env) (city state : String) : Option Point :=
  env.geocode (city ++ ", " ++ state ++ ", USA")

/-- `geocodeStop` of `main.ts`; a thrown `Error` is `Except.error` with the
error message. -/
def geocodeStop (env : Env) (stop : StopInput) : Except String ResolvedStop :=
  if optTruthy stop.address then
    let a := stop.address.getD ""
    match env.geocode a with
    | none => .error ("Cannot geocode address: " ++ a)
    | some point => .ok { point := point, label := a }
  else if optTruthy stop.city && optTruthy stop.state then
    let c := stop.city.getD ""
    let st := stop.state.getD ""
    match geocodeCityState env c st with
    | none => .error ("Cannot geocode city/state: " ++ c ++ ", " ++ st)
    | some point =>
      .ok { point := point, label := c ++ ", " ++ st, city := some c, state := some st }
  else
    .error "Stop must have either address or city+state"

/-- The stop-geocoding loop of `handleEta` (`for (const s of stops)`);
the first throw aborts the loop. -/
def geocodeStops (env : Env) : List StopInput → Except String (List ResolvedStop)
  | [] => .ok []
  | s :: rest =>
    match geocodeStop env s with
    | .error e => .error e
    | .ok g =>
      match geocodeStops env rest with
      | .error e => .error e
      | .ok gs => .ok (g :: gs)

/-- The local variables of `handleEta` after the free-text merge
(`let { truckNumber, city, state, originCity, originState } = payload`
plus the overrides). -/
structure Merged where
  truckNumber : Option String
  city : Option String
  state : Option String
  originCity : Option String
  originState : Option String
deriving DecidableEq, Repr

/-- The free-text override block of `handleEta` (lines 369–386):
`payload.query && payload.query.trim().length > 0`, then field-wise
overrides with `??` keeping existing values for fields the parse did not
produce. -/
def mergeQuery (p : EtaRequest) : Merged :=
  let base : Merged := ⟨p.truckNumber, p.city, p.state, p.originCity, p.originState⟩
  match p.query with
  | none => base
  | some q =>
    if 0 < (trimStr q).length then
      match parseFreeformQuery q with
      | some (.truck t c s) =>
        { base with
          truckNumber := some t
          city := c.or base.city
          state := s.or base.state }
      | some (.city oc os c s) =>
        { base with
          originCity := some oc
          originState := some os
          city := c.or base.city
          state := s.or base.state }
      | none => base
    else base

/-- The stop-array assembly of `handleEta` (lines 388–394): an explicit
non-empty `destinations` array wins, else a single legacy
city/state stop, else no stops. -/
def buildStops (p : EtaRequest) (m : Merged) : List StopInput :=
  match p.destinations with
  | some l =>
    if 0 < l.length then l
    else if optTruthy m.city && optTruthy m.state then
      [{ city := m.city, state := m.state }]
    else []
  | none =>
    if optTruthy m.city && optTruthy m.state then
      [{ city := m.city, state := m.state }]
    else []

/-- The `mode` tag of the response. -/
inductive Mode where
  | truck
  | city
deriving DecidableEq, Repr

/-- The `vehicleLocation` response block. -/
structure VehicleLocation where
  lat : ℚ
  lng : ℚ
  formattedAddress : Option String
  mapsUrl : String
deriving DecidableEq, Repr

/-- Origin-resolution output of `handleEta`: mode, origin point/label and
the truck-only extras. -/
structure OriginInfo where
  mode : Mode
  point : Point
  label : String
  vehicleLocation : Option VehicleLocation
  truckName : Option String
deriving DecidableEq, Repr

/-- One leg of the response (`LegResponse` in `main.ts`); the arrival
ISO-8601 string is carried as its underlying millisecond timestamp. -/
structure LegResponse where
  index : ℕ
  originLabel : String
  originPoint : Point
  destLabel : String
  destCity : Option String
  destState : Option String
  destPoint : Point
  distanceKm : ℚ
  distanceMiles : ℚ
  durationSeconds : ℤ
  durationHuman : String
  arrivalMs : ℤ
  mapsDirectionsUrl : String
deriving DecidableEq, Repr

/-- The running state of the leg loop: `currentPoint`, `currentLabel`,
`currentTime`, `totalDistanceKm`, `totalDurationSeconds`. -/
structure LegAcc where
  point : Point
  label : String
  timeMs : ℤ
  totalKm : ℚ
  totalSec : ℤ
deriving DecidableEq, Repr

/-- `routeEta` of `main.ts`: `distanceKm = route.distance / 1000`,
`durationSeconds = Math.round(route.duration)`; a missing route throws. -/
def routeEta (env : Env) (origin dest : Point) : Except String (ℚ × ℤ) :=
  match env.route origin dest with
  | none => .error "No route found from OSRM"
  | some r => .ok (r.distance / 1000, jsRound r.duration)

/-- The sequential leg loop of `handleEta` (lines 468–513), written as the
fold it is: the accumulator advances to each stop's point/label/arrival
and accumulates the distance and duration totals. -/
def buildLegs (env : Env) : LegAcc → ℕ → List ResolvedStop → Except String (List LegResponse × LegAcc)
  | acc, _, [] => .ok ([], acc)
  | acc, i, s :: rest =>
    match routeEta env acc.point s.point with
    | .error e => .error e
    | .ok (distanceKm, durationSeconds) =>
      let arrivalMs := acc.timeMs + durationSeconds * 1000
      let leg : LegResponse := {
        index := i
        originLabel := acc.label
        originPoint := acc.point
        destLabel := s.label
        destCity := s.city
        destState := s.state
        destPoint := s.point
        distanceKm := distanceKm
        distanceMiles := kmToMiles distanceKm
        durationSeconds := durationSeconds
        durationHuman := formatDuration durationSeconds
        arrivalMs := arrivalMs
        mapsDirectionsUrl := buildDirectionsUrl acc.point s.point }
      let acc1 : LegAcc := {
        point := s.point
        label := s.label
        timeMs := arrivalMs
        totalKm := acc.totalKm + distanceKm
        totalSec := acc.totalSec + durationSeconds }
      match buildLegs env acc1 (i + 1) rest with
      | .error e => .error e
      | .ok (legs, acc2) => .ok (leg :: legs, acc2)

/-- The `summary` response block; the final arrival ISO string is carried
as its millisecond timestamp. -/
structure Summary where
  totalDistanceKm : ℚ
  totalDistanceMiles : ℚ
  totalDurationSeconds : ℤ
  totalDurationHuman : String
  finalArrivalMs : ℤ
  mapsDirectionsUrl : String
deriving DecidableEq, Repr

/-- The backward-compatibility `eta` block for single-stop itineraries. -/
structure EtaCompat where
  distanceKm : ℚ
  distanceMiles : ℚ
  durationSeconds : ℤ
  durationHuman : String
  arrivalMs : ℤ
deriving DecidableEq, Repr

/-- The backward-compatibility `destination` block. -/
structure DestCompat where
  city : Option String
  state : Option String
  lat : ℚ
  lng : ℚ
deriving DecidableEq, Repr

/-- The `ApiResponse` shape of `main.ts`. -/
structure ApiResponse where
  mode : Mode
  truckNumber : Option String
  vehicleName : Option String
  vehicleLocation : Option VehicleLocation
  originLabel : String
  originPoint : Point
  originMapsUrl : String
  legs : List LegResponse
  summary : Summary
  eta : Option EtaCompat
  destination : Option DestCompat
deriving DecidableEq, Repr

/-- Lines 515–560 of `handleEta`: summary assembly
(`totalDistanceMiles = kmToMiles(totalDistanceKm)`), the multi-stop
directions link over all stop points, and the single-leg compatibility
blocks. -/
def assembleResponse (m : Merged) (origin : OriginInfo) (legs : List LegResponse)
    (acc : LegAcc) (stopGeos : List ResolvedStop) : ApiResponse :=
  let base : ApiResponse := {
    mode := origin.mode
    truckNumber := m.truckNumber
    vehicleName := origin.truckName
    vehicleLocation := origin.vehicleLocation
    originLabel := origin.label
    originPoint := origin.point
    originMapsUrl := buildPointMapsUrl origin.point
    legs := legs
    summary := {
      totalDistanceKm := acc.totalKm
      totalDistanceMiles := kmToMiles acc.totalKm
      totalDurationSeconds := acc.totalSec
      totalDurationHuman := formatDuration acc.totalSec
      finalArrivalMs := acc.timeMs
      mapsDirectionsUrl := buildMultiStopDirectionsUrl origin.point
        (stopGeos.map (fun g => g.point)) }
    eta := none
    destination := none }
  match legs with
  | [first] =>
    { base with
      eta := some {
        distanceKm := first.distanceKm
        distanceMiles := first.distanceMiles
        durationSeconds := first.durationSeconds
        durationHuman := first.durationHuman
        arrivalMs := first.arrivalMs }
      destination := some {
        city := first.destCity
        state := first.destState
        lat := first.destPoint.lat
        lng := first.destPoint.lng } }
  | _ => base

/-- Body of an HTTP response: an error payload (`{ error, details? }`) or
the success `ApiResponse`. -/
inductive RespBody where
  | failure (error : String) (details : Option String)
  | success (r : ApiResponse)
deriving DecidableEq, Repr

/-- An HTTP response: status code plus JSON body. -/
structure HttpResponse where
  status : ℕ
  body : RespBody
deriving DecidableEq, Repr

/-- Lines 410–458 of `handleEta`: origin resolution. A truthy truck number
selects the vehicle path (Samsara lookup, then GPS snapshot, each failing
with a 404); otherwise the city path requires truthy origin city and state
(else 400) and geocodes them (no result is a 400). -/
def resolveOrigin (env : Env) (m : Merged) : Except HttpResponse OriginInfo :=
  if optTruthy m.truckNumber then
    let t := m.truckNumber.getD ""
    match env.findVehicleByTruckNumber t with
    | none => .error ⟨404, .failure ("Truck " ++ t ++ " not found in Samsara") none⟩
    | some v =>
      match env.getVehicleGpsById v.id with
      | none => .error ⟨404, .failure ("No GPS data for truck " ++ t) none⟩
      | some gps =>
        let point : Point := ⟨gps.latitude, gps.longitude⟩
        .ok {
          mode := .truck
          point := point
          label := gps.reverseGeoFormattedLocation.getD "Truck current location"
          vehicleLocation := some ⟨gps.latitude, gps.longitude,
            gps.reverseGeoFormattedLocation, buildPointMapsUrl point⟩
          truckName := some v.name }
  else if !(optTruthy m.originCity) || !(optTruthy m.originState) then
    .error ⟨400, .failure "originCity and originState are required for city-based routing" none⟩
  else
    let oc := m.originCity.getD ""
    let os := m.originState.getD ""
    match geocodeCityState env oc os with
    | none => .error ⟨400, .failure ("Cannot geocode origin " ++ oc ++ ", " ++ os) none⟩
    | some p =>
      .ok {
        mode := .city
        point := p
        label := oc ++ ", " ++ os
        vehicleLocation := none
        truckName := none }

/-- `handleEta` of `main.ts`, from the payload on (the transport guards —
method check, JSON parse, missing API token — sit outside this model).
Exceptions thrown inside the `try` block (stop geocoding, routing) are the
catch-all 500 `"Internal error"` response; `String(err)` on an `Error`
prepends `"Error: "`. -/
def handleEta (env : Env) (payload : EtaRequest) : HttpResponse :=
  let m := mergeQuery payload
  let stops := buildStops payload m
  if stops.length = 0 then
    ⟨400, .failure "No destinations provided" none⟩
  else
    match resolveOrigin env m with
    | .error resp => resp
    | .ok origin =>
      match geocodeStops env stops with
      | .error e => ⟨500, .failure "Internal error" (some ("Error: " ++ e))⟩
      | .ok stopGeos =>
        match buildLegs env ⟨origin.point, origin.label, env.nowMs, 0, 0⟩ 0 stopGeos with
        | .error e => ⟨500, .failure "Internal error" (some ("Error: " ++ e))⟩
        | .ok (legs, acc) =>
          ⟨200, .success (assembleResponse m origin legs acc stopGeos)⟩

/-- Fixture for the explicit-destinations witness: a request carrying both
a parsable free-text query and a two-stop explicit destination list. -/
def payloadC5 : EtaRequest := {
  query := some "ETA 7001 to Miami FL"
  truckNumber := some "42"
  destinations := some [⟨some "Dallas", some "TX", none⟩, ⟨some "Houston", some "TX", none⟩] }

deriving instance DecidableEq for Except

/-- The `summary.totalDistanceMiles` of a successful response. -/
def respTotalMiles (r : HttpResponse) : Option ℚ :=
  match r.body with
  | .success a => some a.summary.totalDistanceMiles
  | .failure _ _ => none

/-- The sum of the per-leg `distanceMiles` of a successful response. -/
def respLegMilesSum (r : HttpResponse) : Option ℚ :=
  match r.body with
  | .success a => some ((a.legs.map LegResponse.distanceMiles).sum)
  | .failure _ _ => none

/-- Fixture environment for the totals counterexample: every leg routes to
an 80-meter, 0-second hop, so each leg is 0.08 km (0.0 miles after
rounding) while two legs total 0.16 km (0.1 miles after rounding). -/
def envC3 : Env := {
  findVehicleByTruckNumber := fun _ => none
  getVehicleGpsById := fun _ => none
  geocode := fun _ => some ⟨0, 0⟩
  route := fun _ _ => some ⟨80, 0⟩
  nowMs := 0 }

/-- Fixture payload for the totals counterexample: a city-origin request
with two stops. -/
def payloadC3 : EtaRequest := {
  originCity := some "Chicago"
  originState := some "IL"
  destinations := some [⟨some "Dallas", some "TX", none⟩, ⟨some "Austin", some "TX", none⟩] }

/-- Fixture environment for the leg-chaining witness: every leg routes to
a 1000-meter, 60-second hop. -/
def envC2 : Env := {
  findVehicleByTruckNumber := fun _ => none
  getVehicleGpsById := fun _ => none
  geocode := fun _ => none
  route := fun _ _ => some ⟨1000, 60⟩
  nowMs := 0 }

/-- Fixture start accumulator for the leg-chaining witness. -/
def accC2 : LegAcc := ⟨⟨0, 0⟩, "Origin", 0, 0, 0⟩

/-- Fixture resolved stops for the leg-chaining witness. -/
def stopsC2 : List ResolvedStop :=
  [⟨⟨1, 1⟩, "Dallas, TX", some "Dallas", some "TX"⟩,
   ⟨⟨2, 2⟩, "Houston, TX", some "Houston", some "TX"⟩]

/-- The legs the fixture run produces. -/
def legsC2 : List LegResponse :=
  match buildLegs envC2 accC2 0 stopsC2 with
  | .ok (l, _) => l
  | .error _ => []

/-- The final accumulator the fixture run produces. -/
def accC2r : LegAcc :=
  match buildLegs envC2 accC2 0 stopsC2 with
  | .ok (_, a) => a
  | .error _ => accC2

/-- The origin point of the j-th leg, when present. -/
def legOriginAt (l : List LegResponse) (j : ℕ) : Option Point :=
  (l[j]?).map LegResponse.originPoint

/-- The destination point of the j-th leg, when present. -/
def legDestAt (l : List LegResponse) (j : ℕ) : Option Point :=
  (l[j]?).map LegResponse.destPoint

/-- Fixture merged fields (all absent) for the totals witness. -/
def mW : Merged := ⟨none, none, none, none, none⟩

/-- Fixture origin info for the totals witness. -/
def originW : OriginInfo := ⟨Mode.city, ⟨0, 0⟩, "Origin", none, none⟩

/-- Fixture environment for the stop-resolver error-class counterexample:
geocoding always succeeds (so the origin resolves), routing is never
reached. -/
def envC4 : Env := {
  findVehicleByTruckNumber := fun _ => none
  getVehicleGpsById := fun _ => none
  geocode := fun _ => some ⟨0, 0⟩
  route := fun _ _ => none
  nowMs := 0 }

/-- Fixture payload whose single stop descriptor has neither an address
nor a city+state pair. -/
def payloadC4 : EtaRequest := {
  originCity := some "Chicago"
  originState := some "IL"
  destinations := some [⟨none, none, none⟩] }

/-- Fixture environment for the truck-priority witness: truck `"1234"`
exists with a GPS snapshot, geocoding and routing always succeed. -/
def envC10 : Env := {
  findVehicleByTruckNumber := fun s => if s == "1234" then some ⟨"veh1", "UNIT 1234"⟩ else none
  getVehicleGpsById := fun i => if i == "veh1" then some ⟨10, 20, some "Somewhere, TX"⟩ else none
  geocode := fun _ => some ⟨3, 4⟩
  route := fun _ _ => some ⟨1000, 60⟩
  nowMs := 0 }

/-- Fixture payload carrying a structured truck number together with a
free-text query that parses in city mode. -/
def payloadC10 : EtaRequest := {
  query := some "Chicago IL to Dallas TX"
  truckNumber := some "1234" }

/-- The success payload of a response, when present. -/
def respSuccess (h : HttpResponse) : Option ApiResponse :=
  match h.body with
  | .success r => some r
  | .failure _ _ => none

theorem jsRound_eq_floor (q : ℚ) : jsRound q = ⌊q + 1/2⌋ := by
  rw [jsRound, Rat.floor_def, Rat.floor_def']

/-- C6: the three reference parses — `"ETA 5051 to Dallas TX"` is a
vehicle-mode intent for truck `"5051"` toward Dallas, TX;
`"Chicago IL to Dallas TX"` is a city-mode intent Chicago, IL → Dallas,
TX; `"hello"` is unparseable (`null`, so the caller falls back to the
structured fields). -/
theorem freeform_parse_examples :
    parseFreeformQuery "ETA 5051 to Dallas TX" =
      some (.truck "5051" (some "Dallas") (some "TX")) ∧
    parseFreeformQuery "Chicago IL to Dallas TX" =
      some (.city "Chicago" "IL" (some "Dallas") (some "TX")) ∧
    parseFreeformQuery "hello" = none := by
  exact ⟨by decide, by decide, by decide⟩

/-- C8: `kmToMiles` is a function of its input (determinism), its value is
always an integer number of tenths (rounding to exactly 1 decimal place),
it differs from the exact product `km * 0.621371` by at most half of one
tenth, and `kmToMiles 100 = 62.1`. -/
theorem kmToMiles_one_decimal_spec :
    (∀ km : ℚ, ∃ n : ℤ, kmToMiles km = (n : ℚ) / 10) ∧
    (∀ km : ℚ, |kmToMiles km - km * (621371 / 1000000)| ≤ 1 / 20) ∧
    kmToMiles 100 = 621 / 10 := by
  refine ⟨fun km => ⟨jsRound (km * (621371 / 1000000) * 10), rfl⟩, fun km => ?_, ?_⟩
  · rw [kmToMiles, jsRound_eq_floor]
    set x := km * (621371 / 1000000) * 10 with hx
    have h1 : (⌊x + 1/2⌋ : ℚ) ≤ x + 1/2 := Int.floor_le _
    have h2 : x + 1/2 - 1 < (⌊x + 1/2⌋ : ℚ) := Int.sub_one_lt_floor _
    have hx10 : km * (621371 / 1000000) = x / 10 := by rw [hx]; ring
    rw [hx10, abs_le]
    constructor <;> linarith
  · rw [kmToMiles, jsRound_eq_floor]; norm_num

/-- C9: for every non-negative (integer) seconds value the formatter
returns `"{H}h {M}m"` when `H > 0` and `"{M}m"` otherwise, with
`H = ⌊sec / 3600⌋` and `M = ⌊(sec mod 3600) / 60⌋`; in particular
`formatDuration 0 = "0m"`, `formatDuration 3661 = "1h 1m"` and
`formatDuration 59 = "0m"`. -/
theorem formatDuration_hours_minutes_spec :
    (∀ n : ℕ, formatDuration (n : ℤ) =
      (if 0 < n / 3600 then
        toString (n / 3600) ++ "h " ++ toString (n % 3600 / 60) ++ "m"
      else
        toString (n % 3600 / 60) ++ "m")) ∧
    formatDuration 0 = "0m" ∧ formatDuration 3661 = "1h 1m" ∧ formatDuration 59 = "0m" := by
  refine ⟨fun n => ?_, by decide, by decide, by decide⟩
  have hq : Int.fdiv (n : ℤ) 3600 = ((n / 3600 : ℕ) : ℤ) := by
    rw [Int.fdiv_eq_ediv _ (by norm_num)]; omega
  have hm : Int.tmod (n : ℤ) 3600 = ((n % 3600 : ℕ) : ℤ) := by
    rw [Int.tmod_eq_emod (by positivity) (by norm_num)]; omega
  have hm2 : Int.fdiv ((n % 3600 : ℕ) : ℤ) 60 = ((n % 3600 / 60 : ℕ) : ℤ) := by
    rw [Int.fdiv_eq_ediv _ (by norm_num)]; omega
  have ht : ∀ k : ℕ, toString ((k : ℕ) : ℤ) = toString k := fun k => rfl
  simp only [formatDuration, hq, hm, hm2, ht]
  by_cases hp : 0 < n / 3600
  · rw [if_pos (by exact_mod_cast hp : (0 : ℤ) < ((n / 3600 : ℕ) : ℤ)), if_pos hp]
    refine String.ext ?_
    have h1 : (" " : String).data = [' '] := rfl
    have h2 : ("h" : String).data = ['h'] := rfl
    have h3 : ("m" : String).data = ['m'] := rfl
    have h4 : ("h " : String).data = ['h', ' '] := rfl
    simp [joinSpace, String.data_append, h1, h2, h3, h4]
  · rw [if_neg (by exact_mod_cast hp : ¬ (0 : ℤ) < ((n / 3600 : ℕ) : ℤ)), if_neg hp]
    rfl

/-- C1 counterexample: in the query `"to Dallas 5051"` the token `"to"`
occurs before the vehicle token `"5051"` (and is not the last token), so
the claimed rule predicts the destination tokens are those after the
vehicle token — none, hence a vehicle-only intent. The parser instead
takes the tokens after `"to"`, attaching destination city `"Dallas"` and
state `"5051"`. -/
theorem freeform_vehicle_dest_tokens_counterexample :
    parseFreeformQuery "to Dallas 5051" =
      some (.truck "5051" (some "Dallas") (some "5051")) ∧
    parseFreeformQuery "to Dallas 5051" ≠ some (.truck "5051" none none) := by
  exact ⟨by decide, by decide⟩

/-- C1 amended: in the vehicle branch the destination tokens are the
tokens after `"to"` whenever `"to"` occurs anywhere in the token list and
is not the last token — its position relative to the vehicle token does
not matter — and otherwise the tokens after the vehicle token; with ≥ 2
destination tokens the last is the state and the rest join into the city,
else the intent is vehicle-only. -/
theorem freeform_vehicle_dest_tokens_amended (tokens : List String) (k : ℕ)
    (hlen : 2 ≤ tokens.length) (hk : tokens.findIdx? hasDigit = some k) :
    parseTokens tokens =
      (if 2 ≤ (vehicleDestTokens tokens k).length then
        some (ParsedQuery.truck (tokens.getD k "")
          (some (joinSpace (vehicleDestTokens tokens k).dropLast))
          (some ((vehicleDestTokens tokens k).getD ((vehicleDestTokens tokens k).length - 1) "")))
      else some (ParsedQuery.truck (tokens.getD k "") none none)) := by
  unfold parseTokens vehicleDestTokens
  rw [if_neg (by omega : ¬ tokens.length < 2), hk]

/-- Witness for the amended C1 theorem at `"ETA 5051 to Dallas TX"`. -/
theorem freeform_vehicle_dest_tokens_amended_witness :
    parseTokens ["ETA", "5051", "to", "Dallas", "TX"] =
      some (ParsedQuery.truck "5051" (some "Dallas") (some "TX")) := by
  have h := freeform_vehicle_dest_tokens_amended ["ETA", "5051", "to", "Dallas", "TX"] 1
    (by decide) (by decide)
  exact h.trans (by decide)

/-- C5: when the payload carries an explicit non-empty `destinations`
list, the stop list the itinerary is computed over is exactly that list —
independent of the free-text merge result (and of every other merged
field), so a parsed single destination never replaces or reorders it. -/
theorem explicit_destinations_win (p : EtaRequest) (l : List StopInput)
    (hd : p.destinations = some l) (hne : 0 < l.length) :
    buildStops p (mergeQuery p) = l ∧ ∀ m : Merged, buildStops p m = l := by
  have hall : ∀ m : Merged, buildStops p m = l := by
    intro m
    unfold buildStops
    rw [hd]
    dsimp only
    rw [if_pos hne]
  exact ⟨hall _, hall⟩

/-- Witness for C5: a payload with both a parsable truck-mode query and a
two-stop explicit destination list keeps the explicit list. -/
theorem explicit_destinations_win_witness :
    buildStops payloadC5 (mergeQuery payloadC5) =
      [⟨some "Dallas", some "TX", none⟩, ⟨some "Houston", some "TX", none⟩] := by
  exact (explicit_destinations_win payloadC5
    [⟨some "Dallas", some "TX", none⟩, ⟨some "Houston", some "TX", none⟩]
    (by decide) (by decide)).1

/-- C7: the full-route link is a directions link whose origin is the trip
origin and whose destination is the last stop, carrying exactly the first
N−1 stops, in order, as the pipe-joined percent-encoded waypoints
parameter; one stop yields no waypoints parameter, and zero stops
degenerate to a directions link from the origin to itself. The concrete
three-stop instance shows exactly the first two stops as waypoints. -/
theorem multi_stop_directions_url_spec :
    (∀ (origin : Point) (stops : List Point),
      buildMultiStopDirectionsUrl origin stops =
        match stops.getLast? with
        | none => buildDirectionsUrl origin origin
        | some d =>
          if stops.length = 1 then buildDirectionsUrl origin d
          else
            buildDirectionsUrl origin d ++ "&waypoints=" ++
              encodeURIComponent (joinPipe ((stops.take (stops.length - 1)).map pointStr))) ∧
    buildMultiStopDirectionsUrl ⟨1, 2⟩ [⟨3, 4⟩, ⟨5, 6⟩, ⟨7, 8⟩] =
      "https://www.google.com/maps/dir/?api=1&origin=1%2C2&destination=7%2C8" ++
        "&travelmode=driving&waypoints=3%2C4%7C5%2C6" ∧
    buildMultiStopDirectionsUrl ⟨1, 2⟩ [] = buildDirectionsUrl ⟨1, 2⟩ ⟨1, 2⟩ := by
  refine ⟨fun origin stops => ?_, by decide, rfl⟩
  by_cases h1 : stops = []
  · subst h1; rfl
  · obtain ⟨d, h⟩ : ∃ d, stops.getLast? = some d := by
      cases hh : stops.getLast? with
      | none => exact absurd (List.getLast?_eq_none_iff.mp hh) h1
      | some d => exact ⟨d, rfl⟩
    simp only [buildMultiStopDirectionsUrl, h]
    rw [List.dropLast_eq_take]
    have hlen : 0 < stops.length := List.length_pos.mpr h1
    by_cases h2 : stops.length = 1
    · rw [if_neg (by rw [List.length_take]; omega), if_pos h2]
      rfl
    · rw [if_pos (by rw [List.length_take]; omega), if_neg h2]
      rfl

theorem buildLegs_run (env : Env) :
    ∀ (stops : List ResolvedStop) (acc : LegAcc) (i : ℕ) (legs : List LegResponse) (acc2 : LegAcc),
      buildLegs env acc i stops = .ok (legs, acc2) →
      legs.length = stops.length ∧
      acc2.totalKm = acc.totalKm + (legs.map LegResponse.distanceKm).sum ∧
      acc2.totalSec = acc.totalSec + (legs.map LegResponse.durationSeconds).sum ∧
      (∀ l, legs.getLast? = some l → acc2.timeMs = l.arrivalMs) ∧
      (∀ a, legs[0]? = some a → a.originPoint = acc.point) := by
  intro stops
  induction stops with
  | nil =>
    intro acc i legs acc2 h
    simp only [buildLegs] at h
    injection h with h1
    injection h1 with h2 h3
    subst h2
    subst h3
    refine ⟨rfl, by simp, by simp, ?_, ?_⟩
    · intro l hl
      simp at hl
    · intro a ha
      simp at ha
  | cons s rest ih =>
    intro acc i legs acc2 h
    simp only [buildLegs] at h
    split at h
    · simp at h
    · split at h
      · simp at h
      · rename_i legs2 acc3 hrest
        injection h with h1
        injection h1 with h2 h3
        subst h2
        subst h3
        obtain ⟨ihlen, ihkm, ihsec, ihlast, ihhead⟩ := ih _ _ _ _ hrest
        refine ⟨by simp [ihlen], ?_, ?_, ?_, ?_⟩
        · simp only [List.map_cons, List.sum_cons]
          rw [ihkm]
          dsimp only
          ring
        · simp only [List.map_cons, List.sum_cons]
          rw [ihsec]
          dsimp only
          ring
        · intro l hl
          cases legs2 with
          | nil =>
            simp at hl
            have h0 : rest = [] := by simpa using ihlen.symm
            subst h0
            simp only [buildLegs] at hrest
            injection hrest with h4
            injection h4 with h5 h6
            subst h6
            subst hl
            rfl
          | cons b l2 =>
            rw [List.getLast?_cons_cons] at hl
            exact ihlast l hl
        · intro a ha
          simp only [List.getElem?_cons_zero, Option.some.injEq] at ha
          subst ha
          rfl

theorem buildLegs_chain (env : Env) :
    ∀ (stops : List ResolvedStop) (acc : LegAcc) (i : ℕ) (legs : List LegResponse) (acc2 : LegAcc),
      buildLegs env acc i stops = .ok (legs, acc2) →
      ∀ (j : ℕ) (a b : LegResponse), legs[j]? = some a → legs[j+1]? = some b →
        b.originPoint = a.destPoint := by
  intro stops
  induction stops with
  | nil =>
    intro acc i legs acc2 h j a b ha hb
    simp only [buildLegs] at h
    injection h with h1
    injection h1 with h2 h3
    subst h2
    simp at ha
  | cons s rest ih =>
    intro acc i legs acc2 h j a b ha hb
    simp only [buildLegs] at h
    split at h
    · simp at h
    · split at h
      · simp at h
      · rename_i legs2 acc3 hrest
        injection h with h1
        injection h1 with h2 h3
        subst h2
        cases j with
        | zero =>
          simp only [List.getElem?_cons_zero, Option.some.injEq] at ha
          have hb0 : legs2[0]? = some b := by simpa using hb
          have hhead := (buildLegs_run env rest _ _ legs2 acc3 hrest).2.2.2.2 b hb0
          rw [hhead, ← ha]
        | succ jj =>
          exact ih _ _ _ _ hrest jj a b (by simpa using ha) (by simpa using hb)

theorem geocodeStops_length (env : Env) :
    ∀ (ss : List StopInput) (gs : List ResolvedStop),
      geocodeStops env ss = .ok gs → gs.length = ss.length := by
  intro ss
  induction ss with
  | nil =>
    intro gs h
    simp only [geocodeStops] at h
    injection h with h1
    subst h1
    rfl
  | cons s rest ih =>
    intro gs h
    simp only [geocodeStops] at h
    split at h
    · simp at h
    · split at h
      · simp at h
      · rename_i gs2 hgs
        injection h with h1
        subst h1
        simp [ih _ hgs]

/-- C2: the leg builder is a sequential fold — for every run that
succeeds, it emits exactly one leg per resolved stop, and the origin point
of each leg after the first is the destination point of the leg before it
(the accumulator advances to each stop's point); moreover stop resolution
preserves the stop count, so the legs are in bijection with the requested
stops. -/
theorem itinerary_one_leg_per_stop_chained (env : Env) :
    (∀ (acc : LegAcc) (i : ℕ) (stops : List ResolvedStop) (legs : List LegResponse)
      (acc2 : LegAcc), buildLegs env acc i stops = .ok (legs, acc2) →
      legs.length = stops.length ∧
      ∀ (j : ℕ) (a b : LegResponse), legs[j]? = some a → legs[j+1]? = some b →
        b.originPoint = a.destPoint) ∧
    (∀ (ss : List StopInput) (gs : List ResolvedStop),
      geocodeStops env ss = .ok gs → gs.length = ss.length) := by
  refine ⟨fun acc i stops legs acc2 h => ?_, geocodeStops_length env⟩
  exact ⟨(buildLegs_run env stops acc i legs acc2 h).1,
    buildLegs_chain env stops acc i legs acc2 h⟩

unseal Rat.inv Rat.mul Rat.add Rat.sub in
/-- Witness for C2 at a concrete two-stop run. -/
theorem itinerary_one_leg_per_stop_chained_witness :
    legsC2.length = 2 ∧ legOriginAt legsC2 1 = legDestAt legsC2 0 := by
  have hb : buildLegs envC2 accC2 0 stopsC2 = .ok (legsC2, accC2r) := by decide
  obtain ⟨hlen, hchain⟩ :=
    (itinerary_one_leg_per_stop_chained envC2).1 accC2 0 stopsC2 legsC2 accC2r hb
  refine ⟨by rw [hlen]; rfl, ?_⟩
  cases e0 : legsC2[0]? with
  | none =>
    have hs : (legsC2[0]?).isSome = true := by decide
    rw [e0] at hs
    simp at hs
  | some a =>
    cases e1 : legsC2[1]? with
    | none =>
      have hs : (legsC2[1]?).isSome = true := by decide
      rw [e1] at hs
      simp at hs
    | some b =>
      have hab := hchain 0 a b e0 e1
      simp [legOriginAt, legDestAt, e0, e1, hab]

theorem assembleResponse_summary (m : Merged) (o : OriginInfo) (legs : List LegResponse)
    (acc : LegAcc) (gs : List ResolvedStop) :
    (assembleResponse m o legs acc gs).summary = {
      totalDistanceKm := acc.totalKm
      totalDistanceMiles := kmToMiles acc.totalKm
      totalDurationSeconds := acc.totalSec
      totalDurationHuman := formatDuration acc.totalSec
      finalArrivalMs := acc.timeMs
      mapsDirectionsUrl := buildMultiStopDirectionsUrl o.point
        (gs.map (fun g => g.point)) } := by
  unfold assembleResponse
  split <;> rfl

unseal Rat.inv Rat.mul Rat.add Rat.sub in
/-- C3 counterexample: with two 80-meter legs, each leg rounds to 0.0
miles while the summary reports `kmToMiles` of the summed kilometers —
0.1 miles — so `totalDistanceMiles` is not the sum of the legs'
`distanceMiles`. -/
theorem summary_total_miles_counterexample :
    respTotalMiles (handleEta envC3 payloadC3) = some (1/10) ∧
    respLegMilesSum (handleEta envC3 payloadC3) = some 0 ∧
    (1/10 : ℚ) ≠ 0 := by
  exact ⟨by decide, by decide, by decide⟩

/-- C3 amended: for every successful itinerary run started from a fresh
accumulator, the summary's `totalDistanceKm` is the sum of the legs'
`distanceKm`, `totalDurationSeconds` is the sum of the legs'
`durationSeconds`, the final arrival timestamp is the last leg's arrival
timestamp, and `totalDistanceMiles` is `kmToMiles` applied to the summed
kilometers (a single conversion of the total, not the sum of the per-leg
mile figures). -/
theorem summary_totals_amended (env : Env) (o : Point) (ol : String) (t0 : ℤ)
    (stops : List ResolvedStop) (legs : List LegResponse) (acc2 : LegAcc)
    (h : buildLegs env ⟨o, ol, t0, 0, 0⟩ 0 stops = .ok (legs, acc2))
    (m : Merged) (origin : OriginInfo) (gs : List ResolvedStop) :
    (assembleResponse m origin legs acc2 gs).summary.totalDistanceKm =
      (legs.map LegResponse.distanceKm).sum ∧
    (assembleResponse m origin legs acc2 gs).summary.totalDurationSeconds =
      (legs.map LegResponse.durationSeconds).sum ∧
    (assembleResponse m origin legs acc2 gs).summary.totalDistanceMiles =
      kmToMiles ((legs.map LegResponse.distanceKm).sum) ∧
    (∀ l, legs.getLast? = some l →
      (assembleResponse m origin legs acc2 gs).summary.finalArrivalMs = l.arrivalMs) := by
  obtain ⟨hlen, hkm, hsec, hlast, hhead⟩ := buildLegs_run env stops _ 0 legs acc2 h
  rw [assembleResponse_summary]
  have hkm0 : acc2.totalKm = (legs.map LegResponse.distanceKm).sum := by
    rw [hkm]; ring
  have hsec0 : acc2.totalSec = (legs.map LegResponse.durationSeconds).sum := by
    rw [hsec]; ring
  exact ⟨hkm0, hsec0, by rw [hkm0], fun l hl => hlast l hl⟩

unseal Rat.inv Rat.mul Rat.add Rat.sub in
/-- Witness for the amended C3 theorem at the concrete two-stop run. -/
theorem summary_totals_amended_witness :
    (assembleResponse mW originW legsC2 accC2r stopsC2).summary.totalDistanceKm =
      (legsC2.map LegResponse.distanceKm).sum ∧
    (assembleResponse mW originW legsC2 accC2r stopsC2).summary.totalDistanceMiles =
      kmToMiles ((legsC2.map LegResponse.distanceKm).sum) := by
  have hb : buildLegs envC2 ⟨⟨0, 0⟩, "Origin", 0, 0, 0⟩ 0 stopsC2 = .ok (legsC2, accC2r) := by
    decide
  have h := summary_totals_amended envC2 ⟨0, 0⟩ "Origin" 0 stopsC2 legsC2 accC2r hb
    mW originW stopsC2
  exact ⟨h.1, h.2.2.1⟩

/-- C4 counterexample: a stop descriptor with neither an address nor a
city+state pair makes `geocodeStop` throw, and the handler surfaces the
throw as a 500 `"Internal error"` response — not an InvalidRequest-style
bad-input (400) response as claimed. -/
theorem stop_resolver_error_class_counterexample :
    handleEta envC4 payloadC4 =
      ⟨500, .failure "Internal error"
        (some "Error: Stop must have either address or city+state")⟩ ∧
    (handleEta envC4 payloadC4).status ≠ 400 := by
  exact ⟨by decide, by decide⟩

/-- C4 amended: the Stop Resolver throws when the descriptor has neither a
(truthy) address nor a (truthy) city+state pair, and when geocoding
returns no result; the thrown error surfaces through the handler's
catch-all as a 500 `"Internal error"` response (not a bad-input status);
on success its label is the original address string, or
`"{city}, {state}"`. -/
theorem stop_resolver_failures_amended (env : Env) (s : StopInput) :
    (optTruthy s.address = false → (optTruthy s.city && optTruthy s.state) = false →
      geocodeStop env s = .error "Stop must have either address or city+state") ∧
    (∀ a, s.address = some a → a ≠ "" → env.geocode a = none →
      geocodeStop env s = .error ("Cannot geocode address: " ++ a)) ∧
    (∀ c st, optTruthy s.address = false → s.city = some c → c ≠ "" →
      s.state = some st → st ≠ "" → geocodeCityState env c st = none →
      geocodeStop env s = .error ("Cannot geocode city/state: " ++ c ++ ", " ++ st)) ∧
    (∀ r, geocodeStop env s = .ok r →
      r.label = (if optTruthy s.address then s.address.getD ""
        else s.city.getD "" ++ ", " ++ s.state.getD "")) ∧
    (∀ (p : EtaRequest) (e : String) (o : OriginInfo),
      0 < (buildStops p (mergeQuery p)).length →
      resolveOrigin env (mergeQuery p) = .ok o →
      geocodeStops env (buildStops p (mergeQuery p)) = .error e →
      handleEta env p = ⟨500, .failure "Internal error" (some ("Error: " ++ e))⟩) := by
  refine ⟨?_, ?_, ?_, ?_, ?_⟩
  · intro h1 h2
    unfold geocodeStop
    rw [if_neg (by simp [h1]), if_neg (by simp [h2])]
  · intro a ha hne hg
    have htr : optTruthy s.address = true := by simp [optTruthy, ha, hne]
    unfold geocodeStop
    rw [if_pos htr]
    dsimp only
    have hgd : s.address.getD "" = a := by rw [ha]; rfl
    rw [hgd, hg]
  · intro c st h1 hc hcne hst hstne hg
    have htr : (optTruthy s.city && optTruthy s.state) = true := by
      simp [optTruthy, hc, hst, hcne, hstne]
    unfold geocodeStop
    rw [if_neg (by simp [h1]), if_pos htr]
    dsimp only
    have hgc : s.city.getD "" = c := by rw [hc]; rfl
    have hgs : s.state.getD "" = st := by rw [hst]; rfl
    rw [hgc, hgs, hg]
  · intro r hr
    unfold geocodeStop at hr
    by_cases h1 : optTruthy s.address = true
    · rw [if_pos h1] at hr
      rw [if_pos h1]
      dsimp only at hr
      split at hr
      · simp at hr
      · injection hr with h2
        subst h2
        rfl
    · rw [if_neg h1] at hr
      rw [if_neg h1]
      by_cases h2 : (optTruthy s.city && optTruthy s.state) = true
      · rw [if_pos h2] at hr
        dsimp only at hr
        split at hr
        · simp at hr
        · injection hr with h3
          subst h3
          rfl
      · rw [if_neg h2] at hr
        simp at hr
  · intro p e o hlen hro hgs
    unfold handleEta
    rw [if_neg (by omega), hro]
    dsimp only
    rw [hgs]

/-- Witness for the amended C4 theorem: the empty stop descriptor throws
the missing-fields error, and the concrete run surfaces it as a 500. -/
theorem stop_resolver_failures_amended_witness :
    geocodeStop envC4 ⟨none, none, none⟩ =
      .error "Stop must have either address or city+state" ∧
    handleEta envC4 payloadC4 =
      ⟨500, .failure "Internal error"
        (some "Error: Stop must have either address or city+state")⟩ := by
  refine ⟨(stop_resolver_failures_amended envC4 ⟨none, none, none⟩).1 (by decide) (by decide), ?_⟩
  exact (stop_resolver_failures_amended envC4 ⟨none, none, none⟩).2.2.2.2 payloadC4
    "Stop must have either address or city+state"
    ⟨Mode.city, ⟨0, 0⟩, "Chicago, IL", none, none⟩
    (by decide) (by decide) (by decide)

theorem resolveOrigin_truck_mode (env : Env) (m : Merged)
    (h : optTruthy m.truckNumber = true) :
    ∀ o, resolveOrigin env m = .ok o → o.mode = Mode.truck := by
  intro o ho
  unfold resolveOrigin at ho
  rw [if_pos h] at ho
  dsimp only at ho
  split at ho
  · simp at ho
  · split at ho
    · simp at ho
    · injection ho with h1
      subst h1
      rfl

theorem resolveOrigin_error_status (env : Env) (m : Merged) :
    ∀ e, resolveOrigin env m = .error e → e.status = 404 ∨ e.status = 400 := by
  intro e he
  unfold resolveOrigin at he
  by_cases h : optTruthy m.truckNumber = true
  · rw [if_pos h] at he
    dsimp only at he
    split at he
    · injection he with h1
      subst h1
      left
      rfl
    · split at he
      · injection he with h1
        subst h1
        left
        rfl
      · simp at he
  · rw [if_neg h] at he
    dsimp only at he
    split at he
    · injection he with h1
      subst h1
      right
      rfl
    · split at he
      · injection he with h1
        subst h1
        right
        rfl
      · simp at he

theorem resolveOrigin_truck_only (env : Env) (m m2 : Merged)
    (h : optTruthy m.truckNumber = true) (he : m2.truckNumber = m.truckNumber) :
    resolveOrigin env m2 = resolveOrigin env m := by
  unfold resolveOrigin
  rw [he, if_pos h, if_pos h]

theorem assembleResponse_mode_truckNumber (m : Merged) (o : OriginInfo)
    (legs : List LegResponse) (acc : LegAcc) (gs : List ResolvedStop) :
    (assembleResponse m o legs acc gs).mode = o.mode ∧
    (assembleResponse m o legs acc gs).truckNumber = m.truckNumber := by
  unfold assembleResponse
  split
  · exact ⟨rfl, rfl⟩
  · exact ⟨rfl, rfl⟩

/-- C10: a structured (truthy) truck number survives a free-text query
that parses in city mode — the merge keeps it, origin resolution goes
through the vehicle path exactly as it would with only the truck number
(the parsed origin city/state are ignored), and every successful response
has mode `"truck"` and echoes the truck number. -/
theorem truck_number_not_overridden_by_city_query (p : EtaRequest) (t q : String)
    (oc os : String) (c s : Option String)
    (ht : p.truckNumber = some t) (htne : t ≠ "")
    (hq : p.query = some q) (hqt : 0 < (trimStr q).length)
    (hparse : parseFreeformQuery q = some (.city oc os c s)) :
    (mergeQuery p).truckNumber = some t ∧
    (∀ env : Env, resolveOrigin env (mergeQuery p) =
      resolveOrigin env ⟨some t, none, none, none, none⟩) ∧
    (∀ (env : Env) (r : ApiResponse), handleEta env p = ⟨200, .success r⟩ →
      r.mode = Mode.truck ∧ r.truckNumber = some t) := by
  have hm : (mergeQuery p).truckNumber = some t := by
    unfold mergeQuery
    rw [hq]
    dsimp only
    rw [if_pos hqt, hparse]
    exact ht
  have htr : optTruthy (mergeQuery p).truckNumber = true := by
    rw [hm]
    simp [optTruthy, htne]
  refine ⟨hm, ?_, ?_⟩
  · intro env
    exact resolveOrigin_truck_only env ⟨some t, none, none, none, none⟩ (mergeQuery p)
      (by simp [optTruthy, htne]) (by rw [hm])
  · intro env r h
    unfold handleEta at h
    dsimp only at h
    split at h
    · simp at h
    · split at h
      · rename_i e hre
        have h4 := resolveOrigin_error_status env _ e hre
        rw [h] at h4
        simp at h4
      · rename_i o hro
        split at h
        · simp at h
        · rename_i gs hgs
          split at h
          · simp at h
          · rename_i legs acc hbl
            injection h with h1 h2
            injection h2 with h3
            subst h3
            have hmode := assembleResponse_mode_truckNumber (mergeQuery p) o legs acc gs
            have homode := resolveOrigin_truck_mode env _ htr o hro
            exact ⟨hmode.1.trans homode, hmode.2.trans hm⟩

unseal Rat.inv Rat.mul Rat.add Rat.sub in
/-- Witness for C10 at a concrete truck + city-mode-query request that
runs to success. -/
theorem truck_number_not_overridden_by_city_query_witness :
    (mergeQuery payloadC10).truckNumber = some "1234" ∧
    (respSuccess (handleEta envC10 payloadC10)).map ApiResponse.mode = some Mode.truck := by
  have hm := truck_number_not_overridden_by_city_query payloadC10 "1234"
    "Chicago IL to Dallas TX" "Chicago" "IL" (some "Dallas") (some "TX")
    rfl (by decide) rfl (by decide) (by decide)
  refine ⟨hm.1, ?_⟩
  cases hr : handleEta envC10 payloadC10 with
  | mk st body =>
    cases body with
    | failure err d =>
      have hs : (respSuccess (handleEta envC10 payloadC10)).isSome = true := by decide
      rw [hr] at hs
      simp [respSuccess] at hs
    | success r =>
      have hst : (handleEta envC10 payloadC10).status = 200 := by decide
      rw [hr] at hst
      dsimp at hst
      subst hst
      have h3 := hm.2.2 envC10 r hr
      simp [respSuccess, h3.1]
